import Mathlib

/-!
Verification of `fix-zip.py`: a validate-then-patch routine for the
"Total Number of Disks" field of the ZIP64 End of Central Directory
Locator, plus its thin CLI driver.

Files are modelled as lists of bytes (`List Nat`, each entry < 256 in
practice; only equality of byte slices matters to the program).  The
routine `fix_zip` below is a direct shallow embedding of the Python
function `fix_zip(filepath, dry_run)`:

* `f.read(4)` on a freshly opened file is `file.take 4`;
* `f.seek(-42, os.SEEK_END); f.read(42)` succeeds only when the file has
  at least 42 bytes, in which case it yields `file.drop (file.length - 42)`;
  on a shorter file the seek raises `OSError(EINVAL)`, which is NOT among
  the exceptions caught by the handler (`FileNotFoundError, ValueError`)
  and therefore escapes the function — modelled by `Outcome.uncaught`;
* each `raise ValueError(...)` that is caught by the handler (which prints
  the message and `File skipped!` and returns normally) is modelled by
  `Outcome.skipped` with a tag naming the message;
* `f.seek(-42 + 16, os.SEEK_END); f.write(b'\x01\x00\x00\x00')` is an
  in-place 4-byte overwrite at offset `fileLength - 26`, modelled by
  `writeAt`; the write is also recorded in the `writes` trace so that
  temporal claims about the number and size of writes can be stated.
-/

/-- `b'\x50\x4b\x03\x04'` — local file header signature. -/
def ZIP_LOCAL_HDR_SIG : List Nat := [0x50, 0x4b, 0x03, 0x04]

/-- `b'\x50\x4b\x05\x06'` — end of central directory signature. -/
def ZIP_END_CENTRAL_HDR_SIG : List Nat := [0x50, 0x4b, 0x05, 0x06]

/-- `b'\xff\xff\xff\xff'` — the ZIP64 sentinel expected in the EOCD offset field. -/
def CORRECT_OFFSET : List Nat := [0xff, 0xff, 0xff, 0xff]

/-- `b'\x50\x4b\x06\x07'` — ZIP64 end of central directory locator signature. -/
def ZIP64_END_CENTRAL_LOC_HDR_SIG : List Nat := [0x50, 0x4b, 0x06, 0x07]

/-- Python slice `l[a:b]` on bytes (for `0 ≤ a ≤ b`; clamps at the end). -/
def pySlice (l : List Nat) (a b : Nat) : List Nat := (l.drop a).take (b - a)

/-- The `ValueError` messages raised in `fix_zip` and caught by its handler. -/
inductive ZipError
  | wrongStartSig      -- 'Wrong Zip signature at start of ...'
  | noEndSig           -- 'Cannot find Zip signature at end of ...'
  | badOffset          -- 'Bad offset at the end of ...'
  | noZip64Sig         -- 'Cannot find ZIP64 signature at end of ...'
  | unknownDiskCount   -- 'Unknown "Total Number of Disks" value in ...'
deriving DecidableEq, Repr

/-- OS-level errors that are not caught by `except (FileNotFoundError, ValueError)`. -/
inductive OsError
  | invalidSeek        -- OSError(EINVAL) from `f.seek(-42, os.SEEK_END)` on a file shorter than 42 bytes
deriving DecidableEq, Repr

/-- How one invocation of `fix_zip` terminates. -/
inductive Outcome
  | fixed                    -- 'Correction applied ...' after writing
  | dryRunWouldFix           -- '(dry-run) Correction applied ...', nothing written
  | alreadyCorrect           -- 'Nothing to do ...'
  | skipped (e : ZipError)   -- a ValueError caught by the handler: message printed, normal return
  | uncaught (e : OsError)   -- an exception the handler does not catch escapes `fix_zip`
deriving DecidableEq, Repr

/-- Whether the invocation ended with an exception escaping `fix_zip`. -/
def Outcome.isUncaught : Outcome → Bool
  | .uncaught _ => true
  | _ => false

/-- Result of one invocation: the outcome, the file bytes afterwards, and the
trace of `f.write` calls performed (position, bytes written). -/
structure FixResult where
  outcome : Outcome
  file : List Nat
  writes : List (Nat × List Nat)
deriving DecidableEq, Repr

/-- In-place overwrite of `bs` at offset `pos` (the effect of `f.seek(pos); f.write(bs)`
when `pos + bs.length ≤ file.length`, so the file is not extended). -/
def writeAt (file : List Nat) (pos : Nat) (bs : List Nat) : List Nat :=
  file.take pos ++ bs ++ file.drop (pos + bs.length)

/-- Shallow embedding of `fix_zip(filepath, dry_run)` acting on the file's bytes. -/
def fix_zip (file : List Nat) (dry_run : Bool) : FixResult :=
  -- ZIP signature check: `if f.read(4) != ZIP_LOCAL_HDR_SIG: raise ValueError(...)`
  if file.take 4 = ZIP_LOCAL_HDR_SIG then
    -- `f.seek(-42, os.SEEK_END)`: OSError (uncaught) when the file is shorter than 42 bytes
    if file.length < 42 then
      ⟨.uncaught .invalidSeek, file, []⟩
    else
      -- `data = f.read(42)`
      let data := file.drop (file.length - 42)
      -- EOCD signature check: `data[20:24]`
      if pySlice data 20 24 = ZIP_END_CENTRAL_HDR_SIG then
        -- EOCD offset check: `data[36:40]`
        if pySlice data 36 40 = CORRECT_OFFSET then
          -- ZIP64 signature check: `data[:4]`
          if pySlice data 0 4 = ZIP64_END_CENTRAL_LOC_HDR_SIG then
            -- `match data[16:20]:`
            if pySlice data 16 20 = [0x00, 0x00, 0x00, 0x00] then
              if dry_run then
                ⟨.dryRunWouldFix, file, []⟩
              else
                -- `f.seek(-42 + 16, os.SEEK_END); f.write(b'\x01\x00\x00\x00')`
                ⟨.fixed, writeAt file (file.length - 42 + 16) [0x01, 0x00, 0x00, 0x00],
                  [(file.length - 42 + 16, [0x01, 0x00, 0x00, 0x00])]⟩
            else if pySlice data 16 20 = [0x01, 0x00, 0x00, 0x00] then
              ⟨.alreadyCorrect, file, []⟩
            else
              ⟨.skipped .unknownDiskCount, file, []⟩
          else
            ⟨.skipped .noZip64Sig, file, []⟩
        else
          ⟨.skipped .badOffset, file, []⟩
      else
        ⟨.skipped .noEndSig, file, []⟩
  else
    ⟨.skipped .wrongStartSig, file, []⟩

/-! ## CLI driver (`__main__` block)

`argparse` stores the `--dry-run` flag under attribute `dry_run` and the
positional argument (declared as `'files'`) under attribute `files`.  The
loop at the bottom of the script reads `args.file`, an attribute that was
never set, so Python raises `AttributeError` before any call to `fix_zip`. -/

/-- Attribute names of the argparse namespace that appear in the script. -/
inductive ArgAttr
  | dryRunAttr   -- `dry_run`, set by `--dry-run`
  | filesAttr    -- `files`, set by the positional argument
  | fileAttr     -- `file`, read by the loop but never set
deriving DecidableEq, Repr

/-- A value stored in the argparse namespace. -/
inductive ArgValue
  | flag (b : Bool)
  | paths (ps : List String)
deriving DecidableEq, Repr

/-- Exceptions the `__main__` block can raise. -/
inductive PyExc
  | attributeError (a : ArgAttr)   -- Namespace object has no such attribute
deriving DecidableEq, Repr

/-- `parser.parse_args()`: the namespace holds `dry_run` and `files`. -/
def parse_args (dryRunFlag : Bool) (filePaths : List String) : List (ArgAttr × ArgValue) :=
  [(.dryRunAttr, .flag dryRunFlag), (.filesAttr, .paths filePaths)]

/-- Python attribute lookup on the namespace: `AttributeError` when absent. -/
def getattr (ns : List (ArgAttr × ArgValue)) (a : ArgAttr) : Except PyExc ArgValue :=
  match ns.lookup a with
  | some v => .ok v
  | none => .error (.attributeError a)

/-- The `__main__` block: parse the arguments, then iterate `args.file`
(sic — the stored attribute is `files`), invoking `fix_zip` once per path.
Returns the list of paths on which `fix_zip` is invoked, in order, or the
exception that escapes first. -/
def cli_main (dryRunFlag : Bool) (filePaths : List String) : Except PyExc (List String) :=
  let args := parse_args dryRunFlag filePaths
  match getattr args .fileAttr with
  | .error e => .error e
  | .ok (.paths ps) => .ok ps
  | .ok (.flag _) => .ok []

/-! ## Helper lemmas about byte slices and in-place writes -/

theorem getElem?_pySlice (l : List Nat) (a b i : Nat) :
    (pySlice l a b)[i]? = if i < b - a then l[a + i]? else none := by
  unfold pySlice
  rcases Nat.lt_or_ge i (b - a) with h | h
  · rw [if_pos h, List.getElem?_take_of_lt h, List.getElem?_drop]
  · rw [if_neg (Nat.not_lt.mpr h)]
    exact List.getElem?_eq_none (Nat.le_trans (List.length_take_le _ _) h)

theorem pySlice_zero (l : List Nat) (b : Nat) : pySlice l 0 b = l.take b := by
  simp [pySlice]

theorem pySlice_drop (l : List Nat) (k a b : Nat) :
    pySlice (l.drop k) a b = pySlice l (k + a) (k + b) := by
  unfold pySlice
  rw [List.drop_drop]
  congr 1
  omega

theorem pySlice_congr (l₁ l₂ : List Nat) (a b : Nat)
    (h : ∀ i, a ≤ i → i < b → l₁[i]? = l₂[i]?) :
    pySlice l₁ a b = pySlice l₂ a b := by
  apply List.ext_getElem?
  intro i
  rw [getElem?_pySlice, getElem?_pySlice]
  split
  · exact h (a + i) (by omega) (by omega)
  · rfl

theorem writeAt_length (l bs : List Nat) (pos : Nat) (hp : pos + bs.length ≤ l.length) :
    (writeAt l pos bs).length = l.length := by
  simp [writeAt]
  omega

theorem getElem?_writeAt (l bs : List Nat) (pos i : Nat) (hp : pos + bs.length ≤ l.length) :
    (writeAt l pos bs)[i]? =
      if pos ≤ i ∧ i < pos + bs.length then bs[i - pos]? else l[i]? := by
  have hlt : (l.take pos).length = pos := by
    rw [List.length_take]
    omega
  unfold writeAt
  rcases Nat.lt_or_ge i pos with h1 | h1
  · rw [if_neg (by omega)]
    rw [List.getElem?_append_left (by rw [List.length_append, hlt]; omega),
      List.getElem?_append_left (by omega), List.getElem?_take_of_lt h1]
  · rcases Nat.lt_or_ge i (pos + bs.length) with h2 | h2
    · rw [if_pos ⟨h1, h2⟩]
      rw [List.getElem?_append_left (by rw [List.length_append, hlt]; omega),
        List.getElem?_append_right (by omega), hlt]
    · rw [if_neg (by omega)]
      rw [List.getElem?_append_right (by rw [List.length_append, hlt]; omega),
        List.getElem?_drop, List.length_append, hlt]
      congr 1
      omega

theorem pySlice_writeAt_self (l bs : List Nat) (pos : Nat) (hp : pos + bs.length ≤ l.length) :
    pySlice (writeAt l pos bs) pos (pos + bs.length) = bs := by
  have hlt : (l.take pos).length = pos := by
    rw [List.length_take]
    omega
  unfold writeAt pySlice
  rw [List.append_assoc, List.drop_left' hlt, Nat.add_sub_cancel_left,
    List.take_left' rfl]

/-! ## The 42-byte tail window and the structural invariants -/

/-- The 42-byte window `data` read by `f.seek(-42, os.SEEK_END); f.read(42)`
(meaningful when the file has at least 42 bytes). -/
def tail42 (file : List Nat) : List Nat := file.drop (file.length - 42)

/-- Invariant 1: the file starts with the local-file-header signature. -/
def invariant1 (file : List Nat) : Prop := file.take 4 = ZIP_LOCAL_HDR_SIG

/-- Invariant 2: EOCD signature at tail bytes 20..24. -/
def invariant2 (file : List Nat) : Prop :=
  pySlice (tail42 file) 20 24 = ZIP_END_CENTRAL_HDR_SIG

/-- Invariant 3: sentinel `FF FF FF FF` at tail bytes 36..40. -/
def invariant3 (file : List Nat) : Prop :=
  pySlice (tail42 file) 36 40 = CORRECT_OFFSET

/-- Invariant 4: ZIP64 locator signature at tail bytes 0..4. -/
def invariant4 (file : List Nat) : Prop :=
  pySlice (tail42 file) 0 4 = ZIP64_END_CENTRAL_LOC_HDR_SIG

/-- The disk-count field: tail bytes 16..20. -/
def diskCount (file : List Nat) : List Nat := pySlice (tail42 file) 16 20

/-- Invariant 5: the disk-count field holds `00 00 00 00` or `01 00 00 00`. -/
def invariant5 (file : List Nat) : Prop :=
  diskCount file = [0x00, 0x00, 0x00, 0x00] ∨ diskCount file = [0x01, 0x00, 0x00, 0x00]

instance (file : List Nat) : Decidable (invariant1 file) := by unfold invariant1; infer_instance
instance (file : List Nat) : Decidable (invariant2 file) := by unfold invariant2; infer_instance
instance (file : List Nat) : Decidable (invariant3 file) := by unfold invariant3; infer_instance
instance (file : List Nat) : Decidable (invariant4 file) := by unfold invariant4; infer_instance
instance (file : List Nat) : Decidable (invariant5 file) := by unfold invariant5; infer_instance

/-- Invariants 1 and 4 cannot hold together on a file of fewer than 43 bytes:
if the length is at most 42 the tail window is the whole file, whose first four
bytes would have to be both signatures at once. -/
theorem le_length_of_invariants (file : List Nat)
    (h1 : invariant1 file) (h4 : invariant4 file) : 42 ≤ file.length := by
  by_contra hcon
  push_neg at hcon
  have hz : file.length - 42 = 0 := by omega
  unfold invariant4 tail42 at h4
  rw [hz, List.drop_zero, pySlice_zero] at h4
  unfold invariant1 at h1
  rw [h1] at h4
  exact absurd h4 (by decide)

/-- On a defective file satisfying all invariants, `fix_zip` with `dry_run = False`
evaluates to the patching branch. -/
theorem fix_zip_defective_eq (file : List Nat)
    (h1 : invariant1 file) (h2 : invariant2 file) (h3 : invariant3 file)
    (h4 : invariant4 file) (h5 : diskCount file = [0x00, 0x00, 0x00, 0x00]) :
    fix_zip file false =
      ⟨.fixed, writeAt file (file.length - 42 + 16) [0x01, 0x00, 0x00, 0x00],
        [(file.length - 42 + 16, [0x01, 0x00, 0x00, 0x00])]⟩ := by
  have hlen : 42 ≤ file.length := le_length_of_invariants file h1 h4
  have hnl : ¬ file.length < 42 := by omega
  unfold invariant1 at h1
  unfold invariant2 tail42 at h2
  unfold invariant3 tail42 at h3
  unfold invariant4 tail42 at h4
  unfold diskCount tail42 at h5
  simp [fix_zip, h1, h2, h3, h4, h5, hnl]

/-- On a file satisfying the four signature invariants whose disk-count field is
already `01 00 00 00`, `fix_zip` reports `alreadyCorrect` and does nothing. -/
theorem fix_zip_already_correct_eq (file : List Nat) (dry_run : Bool)
    (h1 : invariant1 file) (h2 : invariant2 file) (h3 : invariant3 file)
    (h4 : invariant4 file) (h5 : diskCount file = [0x01, 0x00, 0x00, 0x00]) :
    fix_zip file dry_run = ⟨.alreadyCorrect, file, []⟩ := by
  have hlen : 42 ≤ file.length := le_length_of_invariants file h1 h4
  have hnl : ¬ file.length < 42 := by omega
  unfold invariant1 at h1
  unfold invariant2 tail42 at h2
  unfold invariant3 tail42 at h3
  unfold invariant4 tail42 at h4
  unfold diskCount tail42 at h5
  simp [fix_zip, h1, h2, h3, h4, h5, hnl]

/-! ## Properties of the patched file -/

/-- The file produced by the patching branch: `01 00 00 00` overwritten at
offset `fileLength - 42 + 16` (that is, `fileLength - 26`). -/
def patchFile (file : List Nat) : List Nat :=
  writeAt file (file.length - 42 + 16) [0x01, 0x00, 0x00, 0x00]

theorem patchFile_length (file : List Nat) (hlen : 42 ≤ file.length) :
    (patchFile file).length = file.length := by
  unfold patchFile
  exact writeAt_length _ _ _ (by simp; omega)

theorem patchFile_getElem?_outside (file : List Nat) (hlen : 42 ≤ file.length) (i : Nat)
    (hout : i < file.length - 26 ∨ file.length - 22 ≤ i) :
    (patchFile file)[i]? = file[i]? := by
  unfold patchFile
  rw [getElem?_writeAt _ _ _ _ (by simp; omega), if_neg (by simp; omega)]

theorem patchFile_getElem?_inside (file : List Nat) (hlen : 42 ≤ file.length) (i : Nat)
    (hin : file.length - 26 ≤ i ∧ i < file.length - 22) :
    (patchFile file)[i]? = [0x01, 0x00, 0x00, 0x00][i - (file.length - 26)]? := by
  unfold patchFile
  rw [getElem?_writeAt _ _ _ _ (by simp; omega), if_pos (by simp; omega)]
  congr 1
  omega

theorem patchFile_pySlice_outside (file : List Nat) (hlen : 42 ≤ file.length) (a b : Nat)
    (hout : b ≤ file.length - 26 ∨ file.length - 22 ≤ a) :
    pySlice (patchFile file) a b = pySlice file a b := by
  apply pySlice_congr
  intro i hai hib
  exact patchFile_getElem?_outside file hlen i (by omega)

theorem patchFile_diskCount (file : List Nat) (hlen : 42 ≤ file.length) :
    diskCount (patchFile file) = [0x01, 0x00, 0x00, 0x00] := by
  unfold diskCount tail42
  rw [patchFile_length file hlen, pySlice_drop]
  have he : file.length - 42 + 20 =
      (file.length - 42 + 16) + ([0x01, 0x00, 0x00, 0x00] : List Nat).length := by
    simp
  rw [he]
  exact pySlice_writeAt_self _ _ _ (by simp; omega)

theorem patchFile_invariants (file : List Nat)
    (h1 : invariant1 file) (h2 : invariant2 file) (h3 : invariant3 file)
    (h4 : invariant4 file) :
    invariant1 (patchFile file) ∧ invariant2 (patchFile file) ∧
    invariant3 (patchFile file) ∧ invariant4 (patchFile file) := by
  have hlen : 42 ≤ file.length := le_length_of_invariants file h1 h4
  refine ⟨?_, ?_, ?_, ?_⟩
  · unfold invariant1 at h1 ⊢
    rw [← pySlice_zero, patchFile_pySlice_outside file hlen 0 4 (by omega), pySlice_zero]
    exact h1
  · unfold invariant2 tail42 at h2 ⊢
    rw [patchFile_length file hlen, pySlice_drop,
      patchFile_pySlice_outside file hlen _ _ (by omega), ← pySlice_drop]
    exact h2
  · unfold invariant3 tail42 at h3 ⊢
    rw [patchFile_length file hlen, pySlice_drop,
      patchFile_pySlice_outside file hlen _ _ (by omega), ← pySlice_drop]
    exact h3
  · unfold invariant4 tail42 at h4 ⊢
    rw [patchFile_length file hlen, pySlice_drop,
      patchFile_pySlice_outside file hlen _ _ (by omega), ← pySlice_drop]
    exact h4

/-! ## Concrete example files -/

/-- A 46-byte archive satisfying all four signature invariants whose
disk-count field is the defective `00 00 00 00`. -/
def defectiveExample : List Nat :=
  [0x50, 0x4b, 0x03, 0x04] ++
  [0x50, 0x4b, 0x06, 0x07] ++ List.replicate 12 0 ++ [0x00, 0x00, 0x00, 0x00] ++
  [0x50, 0x4b, 0x05, 0x06] ++ List.replicate 12 0 ++ [0xff, 0xff, 0xff, 0xff] ++
  [0x00, 0x00]

/-- A 46-byte archive satisfying all four signature invariants whose
disk-count field holds the unrecoverable `02 00 00 00`. -/
def unknownDiskExample : List Nat :=
  [0x50, 0x4b, 0x03, 0x04] ++
  [0x50, 0x4b, 0x06, 0x07] ++ List.replicate 12 0 ++ [0x02, 0x00, 0x00, 0x00] ++
  [0x50, 0x4b, 0x05, 0x06] ++ List.replicate 12 0 ++ [0xff, 0xff, 0xff, 0xff] ++
  [0x00, 0x00]


/-! ## Exhaustive case analysis of `fix_zip` -/

/-- Every invocation of `fix_zip` lands in exactly one of the nine source
branches; the defective branch is the only one that writes. -/
theorem fix_zip_eq_cases (file : List Nat) (dry_run : Bool) :
    fix_zip file dry_run = ⟨.skipped .wrongStartSig, file, []⟩ ∨
    (file.take 4 = ZIP_LOCAL_HDR_SIG ∧ file.length < 42 ∧
      fix_zip file dry_run = ⟨.uncaught .invalidSeek, file, []⟩) ∨
    fix_zip file dry_run = ⟨.skipped .noEndSig, file, []⟩ ∨
    fix_zip file dry_run = ⟨.skipped .badOffset, file, []⟩ ∨
    fix_zip file dry_run = ⟨.skipped .noZip64Sig, file, []⟩ ∨
    (dry_run = true ∧ fix_zip file dry_run = ⟨.dryRunWouldFix, file, []⟩) ∨
    (dry_run = false ∧ invariant1 file ∧ invariant2 file ∧ invariant3 file ∧
      invariant4 file ∧ diskCount file = [0x00, 0x00, 0x00, 0x00] ∧
      fix_zip file dry_run =
        ⟨.fixed, patchFile file, [(file.length - 42 + 16, [0x01, 0x00, 0x00, 0x00])]⟩) ∨
    fix_zip file dry_run = ⟨.alreadyCorrect, file, []⟩ ∨
    fix_zip file dry_run = ⟨.skipped .unknownDiskCount, file, []⟩ := by
  by_cases c1 : file.take 4 = ZIP_LOCAL_HDR_SIG
  · by_cases c2 : file.length < 42
    · exact Or.inr (Or.inl ⟨c1, c2, by simp [fix_zip, c1, c2]⟩)
    · by_cases c3 : pySlice (file.drop (file.length - 42)) 20 24 = ZIP_END_CENTRAL_HDR_SIG
      · by_cases c4 : pySlice (file.drop (file.length - 42)) 36 40 = CORRECT_OFFSET
        · by_cases c5 : pySlice (file.drop (file.length - 42)) 0 4 =
              ZIP64_END_CENTRAL_LOC_HDR_SIG
          · by_cases c6 : pySlice (file.drop (file.length - 42)) 16 20 =
                [0x00, 0x00, 0x00, 0x00]
            · cases dry_run with
              | true =>
                refine Or.inr (Or.inr (Or.inr (Or.inr (Or.inr (Or.inl ⟨rfl, ?_⟩)))))
                simp [fix_zip, c1, c2, c3, c4, c5, c6]
              | false =>
                refine Or.inr (Or.inr (Or.inr (Or.inr (Or.inr (Or.inr (Or.inl
                  ⟨rfl, c1, c3, c4, c5, c6, ?_⟩))))))
                simp [fix_zip, patchFile, c1, c2, c3, c4, c5, c6]
            · by_cases c7 : pySlice (file.drop (file.length - 42)) 16 20 =
                  [0x01, 0x00, 0x00, 0x00]
              · refine Or.inr (Or.inr (Or.inr (Or.inr (Or.inr (Or.inr (Or.inr
                  (Or.inl ?_)))))))
                simp [fix_zip, c1, c2, c3, c4, c5, c6, c7]
              · refine Or.inr (Or.inr (Or.inr (Or.inr (Or.inr (Or.inr (Or.inr
                  (Or.inr ?_)))))))
                simp [fix_zip, c1, c2, c3, c4, c5, c6, c7]
          · refine Or.inr (Or.inr (Or.inr (Or.inr (Or.inl ?_))))
            simp [fix_zip, c1, c2, c3, c4, c5]
        · refine Or.inr (Or.inr (Or.inr (Or.inl ?_)))
          simp [fix_zip, c1, c2, c3, c4]
      · refine Or.inr (Or.inr (Or.inl ?_))
        simp [fix_zip, c1, c2, c3]
  · exact Or.inl (by simp [fix_zip, c1])

/-! ## Claims -/

/-- C1: on a file where all five structural invariants hold and the disk-count
field at tail bytes 16..20 is `00 00 00 00`, a non-dry-run invocation of
`fix_zip` reports `fixed`, leaves the file length unchanged, sets the 4 bytes at
offsets `fileLength - 26 .. fileLength - 22` to `01 00 00 00`, and leaves every
byte outside that region unchanged. -/
theorem C1_fix_patches_exactly_disk_count (file : List Nat)
    (h1 : invariant1 file) (h2 : invariant2 file) (h3 : invariant3 file)
    (h4 : invariant4 file) (h5 : diskCount file = [0x00, 0x00, 0x00, 0x00]) :
    (fix_zip file false).outcome = .fixed ∧
    (fix_zip file false).file.length = file.length ∧
    pySlice (fix_zip file false).file (file.length - 26) (file.length - 22) =
      [0x01, 0x00, 0x00, 0x00] ∧
    ∀ i, i < file.length - 26 ∨ file.length - 22 ≤ i →
      (fix_zip file false).file[i]? = file[i]? := by
  have hlen : 42 ≤ file.length := le_length_of_invariants file h1 h4
  have heq := fix_zip_defective_eq file h1 h2 h3 h4 h5
  have hfile : (fix_zip file false).file = patchFile file := by
    rw [heq]
    rfl
  have hout : (fix_zip file false).outcome = .fixed := by rw [heq]
  refine ⟨hout, ?_, ?_, ?_⟩
  · rw [hfile]
    exact patchFile_length file hlen
  · rw [hfile]
    have hd := patchFile_diskCount file hlen
    unfold diskCount tail42 at hd
    rw [patchFile_length file hlen, pySlice_drop] at hd
    have e1 : file.length - 26 = file.length - 42 + 16 := by omega
    have e2 : file.length - 22 = file.length - 42 + 20 := by omega
    rw [e1, e2]
    exact hd
  · intro i hi
    rw [hfile]
    exact patchFile_getElem?_outside file hlen i hi

/-- Witness for C1 at a concrete defective 46-byte archive. -/
theorem C1_witness :
    (fix_zip defectiveExample false).outcome = .fixed ∧
    (fix_zip defectiveExample false).file.length = defectiveExample.length ∧
    pySlice (fix_zip defectiveExample false).file (defectiveExample.length - 26)
      (defectiveExample.length - 22) = [0x01, 0x00, 0x00, 0x00] ∧
    (fix_zip defectiveExample false).file[0]? = defectiveExample[0]? := by
  obtain ⟨a, b, c, d⟩ := C1_fix_patches_exactly_disk_count defectiveExample
    (by decide) (by decide) (by decide) (by decide) (by decide)
  exact ⟨a, b, c, d 0 (by decide)⟩

/-- C2: for every file and flag, `fix_zip` performs at most one write, any write
it performs is exactly 4 bytes long, a write happens only when all five
structural invariants hold, and no write ever happens in dry-run mode. -/
theorem C2_write_discipline (file : List Nat) (dry_run : Bool) :
    (fix_zip file dry_run).writes.length ≤ 1 ∧
    (∀ w ∈ (fix_zip file dry_run).writes, w.2.length = 4) ∧
    ((fix_zip file dry_run).writes ≠ [] →
      invariant1 file ∧ invariant2 file ∧ invariant3 file ∧ invariant4 file ∧
        invariant5 file) ∧
    (dry_run = true → (fix_zip file dry_run).writes = []) := by
  rcases fix_zip_eq_cases file dry_run with
    h | ⟨_, _, h⟩ | h | h | h | ⟨_, h⟩ | ⟨hd, i1, i2, i3, i4, i5, h⟩ | h | h
  · rw [h]
    exact ⟨by simp, by simp, by simp, by simp⟩
  · rw [h]
    exact ⟨by simp, by simp, by simp, by simp⟩
  · rw [h]
    exact ⟨by simp, by simp, by simp, by simp⟩
  · rw [h]
    exact ⟨by simp, by simp, by simp, by simp⟩
  · rw [h]
    exact ⟨by simp, by simp, by simp, by simp⟩
  · rw [h]
    exact ⟨by simp, by simp, by simp, by simp⟩
  · rw [h]
    refine ⟨by simp, by simp, fun _ => ⟨i1, i2, i3, i4, ?_⟩, ?_⟩
    · unfold invariant5
      exact Or.inl i5
    · rw [hd]
      simp
  · rw [h]
    exact ⟨by simp, by simp, by simp, by simp⟩
  · rw [h]
    exact ⟨by simp, by simp, by simp, by simp⟩

/-- Witness for C2 at the concrete defective archive in dry-run mode. -/
theorem C2_witness :
    (fix_zip defectiveExample true).writes.length ≤ 1 ∧
    (fix_zip defectiveExample true).writes = [] := by
  obtain ⟨a, _, _, d⟩ := C2_write_discipline defectiveExample true
  exact ⟨a, d rfl⟩

/-- C3: a dry-run invocation never mutates the file, whatever its contents:
the bytes afterwards are identical to the bytes before, and no write occurs. -/
theorem C3_dry_run_never_mutates (file : List Nat) :
    (fix_zip file true).file = file ∧ (fix_zip file true).writes = [] := by
  rcases fix_zip_eq_cases file true with
    h | ⟨_, _, h⟩ | h | h | h | ⟨_, h⟩ | ⟨hd, _⟩ | h | h
  · exact ⟨by rw [h], by rw [h]⟩
  · exact ⟨by rw [h], by rw [h]⟩
  · exact ⟨by rw [h], by rw [h]⟩
  · exact ⟨by rw [h], by rw [h]⟩
  · exact ⟨by rw [h], by rw [h]⟩
  · exact ⟨by rw [h], by rw [h]⟩
  · cases hd
  · exact ⟨by rw [h], by rw [h]⟩
  · exact ⟨by rw [h], by rw [h]⟩

/-- C4: on a defective file satisfying all invariants, running `fix_zip` twice
without dry-run yields `fixed` then `alreadyCorrect`, and the second call writes
nothing and leaves the bytes exactly as after the first call. -/
theorem C4_idempotent (file : List Nat)
    (h1 : invariant1 file) (h2 : invariant2 file) (h3 : invariant3 file)
    (h4 : invariant4 file) (h5 : diskCount file = [0x00, 0x00, 0x00, 0x00]) :
    (fix_zip file false).outcome = .fixed ∧
    (fix_zip (fix_zip file false).file false).outcome = .alreadyCorrect ∧
    (fix_zip (fix_zip file false).file false).writes = [] ∧
    (fix_zip (fix_zip file false).file false).file = (fix_zip file false).file := by
  have hlen : 42 ≤ file.length := le_length_of_invariants file h1 h4
  have heq := fix_zip_defective_eq file h1 h2 h3 h4 h5
  have hfile : (fix_zip file false).file = patchFile file := by
    rw [heq]
    rfl
  have hout : (fix_zip file false).outcome = .fixed := by rw [heq]
  obtain ⟨p1, p2, p3, p4⟩ := patchFile_invariants file h1 h2 h3 h4
  have heq2 : fix_zip (patchFile file) false = ⟨.alreadyCorrect, patchFile file, []⟩ :=
    fix_zip_already_correct_eq (patchFile file) false p1 p2 p3 p4
      (patchFile_diskCount file hlen)
  refine ⟨hout, ?_, ?_, ?_⟩
  · rw [hfile, heq2]
  · rw [hfile, heq2]
  · rw [hfile, heq2]

/-- Witness for C4 at the concrete defective 46-byte archive. -/
theorem C4_witness :
    (fix_zip defectiveExample false).outcome = .fixed ∧
    (fix_zip (fix_zip defectiveExample false).file false).outcome = .alreadyCorrect ∧
    (fix_zip (fix_zip defectiveExample false).file false).writes = [] ∧
    (fix_zip (fix_zip defectiveExample false).file false).file =
      (fix_zip defectiveExample false).file :=
  C4_idempotent defectiveExample (by decide) (by decide) (by decide) (by decide) (by decide)

/-- C5 counterexample: on the 4-byte file `50 4B 03 04` the signature check
passes, and the backwards seek then raises an `OSError` that the handler
(`except (FileNotFoundError, ValueError)`) does not catch, so an error escapes
`fix_zip` instead of being converted to a reported outcome. -/
theorem C5_counterexample :
    (fix_zip [0x50, 0x4b, 0x03, 0x04] false).outcome = .uncaught .invalidSeek := by
  decide

/-- C5 (amended): an error escapes `fix_zip` uncaught exactly when the file
begins with the local-file-header signature and is shorter than 42 bytes (the
failing backwards seek); every other run converts its error, if any, into a
reported per-file outcome and returns normally. -/
theorem C5_uncaught_characterization (file : List Nat) (dry_run : Bool) :
    (fix_zip file dry_run).outcome.isUncaught = true ↔
      file.take 4 = ZIP_LOCAL_HDR_SIG ∧ file.length < 42 := by
  constructor
  · intro hu
    by_cases c1 : file.take 4 = ZIP_LOCAL_HDR_SIG
    · by_cases c2 : file.length < 42
      · exact ⟨c1, c2⟩
      · exfalso
        rcases fix_zip_eq_cases file dry_run with
          h | ⟨_, hlt, _⟩ | h | h | h | ⟨_, h⟩ | ⟨_, _, _, _, _, _, h⟩ | h | h
        all_goals first
          | (rw [h] at hu; exact absurd hu (by simp [Outcome.isUncaught]))
          | exact absurd hlt c2
    · rcases fix_zip_eq_cases file dry_run with
        h | ⟨hsig, _, _⟩ | h | h | h | ⟨_, h⟩ | ⟨_, _, _, _, _, _, h⟩ | h | h
      all_goals first
        | (rw [h] at hu; exact absurd hu (by simp [Outcome.isUncaught]))
        | exact absurd hsig c1
  · rintro ⟨hsig, hlen⟩
    simp [fix_zip, hsig, hlen, Outcome.isUncaught]

/-- On a file of 42 to 45 bytes that begins with the local-file-header
signature, the ZIP64 locator check cannot pass: the tail window overlaps the
local header, so the window's first byte is one of `50 4B 03 04` shifted by at
most 3, never the start of `50 4B 06 07`. -/
theorem zip64_check_fails_short (file : List Nat)
    (h1 : file.take 4 = ZIP_LOCAL_HDR_SIG) (hge : 42 ≤ file.length)
    (hlt : file.length < 46) :
    ¬ pySlice (file.drop (file.length - 42)) 0 4 = ZIP64_END_CENTRAL_LOC_HDR_SIG := by
  intro hcon
  have hfirst : ∀ i, i < 4 → file[i]? = ZIP_LOCAL_HDR_SIG[i]? := by
    intro i hi
    rw [← List.getElem?_take_of_lt hi, h1]
  have htail : ∀ i, i < 4 →
      file[(file.length - 42) + i]? = ZIP64_END_CENTRAL_LOC_HDR_SIG[i]? := by
    intro i hi
    have hsl := congrArg (fun l => l[i]?) hcon
    simp only [getElem?_pySlice] at hsl
    rw [if_pos (by omega), List.getElem?_drop] at hsl
    simpa using hsl
  rcases (by omega :
      file.length = 42 ∨ file.length = 43 ∨ file.length = 44 ∨ file.length = 45)
    with h | h | h | h
  · have ha := htail 2 (by omega)
    have hb := hfirst 2 (by omega)
    rw [h] at ha
    norm_num [ZIP_LOCAL_HDR_SIG, ZIP64_END_CENTRAL_LOC_HDR_SIG] at ha hb
    rw [hb] at ha
    simp at ha
  · have ha := htail 2 (by omega)
    have hb := hfirst 3 (by omega)
    rw [h] at ha
    norm_num [ZIP_LOCAL_HDR_SIG, ZIP64_END_CENTRAL_LOC_HDR_SIG] at ha hb
    rw [hb] at ha
    simp at ha
  · have ha := htail 0 (by omega)
    have hb := hfirst 2 (by omega)
    rw [h] at ha
    norm_num [ZIP_LOCAL_HDR_SIG, ZIP64_END_CENTRAL_LOC_HDR_SIG] at ha hb
    rw [hb] at ha
    simp at ha
  · have ha := htail 0 (by omega)
    have hb := hfirst 3 (by omega)
    rw [h] at ha
    norm_num [ZIP_LOCAL_HDR_SIG, ZIP64_END_CENTRAL_LOC_HDR_SIG] at ha hb
    rw [hb] at ha
    simp at ha

/-- C6 counterexample: the 5-byte file `50 4B 03 04 00` is shorter than 46
bytes, yet `fix_zip` does not yield a reported per-file outcome — the backwards
seek raises an `OSError` that escapes uncaught. -/
theorem C6_counterexample :
    (fix_zip [0x50, 0x4b, 0x03, 0x04, 0x00] false).outcome = .uncaught .invalidSeek := by
  decide

/-- C6 (amended): a file shorter than 46 bytes never gets any byte written and
is left unchanged; when it begins with the local-file-header signature and is
shorter than 42 bytes the seek error escapes `fix_zip` uncaught, and otherwise
`fix_zip` yields a reported `skipped` (caught ValueError) outcome. -/
theorem C6_short_file_no_write (file : List Nat) (hshort : file.length < 46) :
    (fix_zip file false).writes = [] ∧
    (fix_zip file false).file = file ∧
    (file.take 4 = ZIP_LOCAL_HDR_SIG → file.length < 42 →
      (fix_zip file false).outcome = .uncaught .invalidSeek) ∧
    ((file.take 4 = ZIP_LOCAL_HDR_SIG → 42 ≤ file.length) →
      ∃ e, (fix_zip file false).outcome = .skipped e) := by
  by_cases c1 : file.take 4 = ZIP_LOCAL_HDR_SIG
  · by_cases c2 : file.length < 42
    · have heq : fix_zip file false = ⟨.uncaught .invalidSeek, file, []⟩ := by
        simp [fix_zip, c1, c2]
      rw [heq]
      exact ⟨rfl, rfl, fun _ _ => rfl, fun hc => absurd (hc c1) (by omega)⟩
    · have hge : 42 ≤ file.length := by omega
      have hz := zip64_check_fails_short file c1 hge hshort
      have hsk : ∃ e, fix_zip file false = ⟨.skipped e, file, []⟩ := by
        by_cases c3 : pySlice (file.drop (file.length - 42)) 20 24 =
            ZIP_END_CENTRAL_HDR_SIG
        · by_cases c4 : pySlice (file.drop (file.length - 42)) 36 40 = CORRECT_OFFSET
          · exact ⟨.noZip64Sig, by simp [fix_zip, c1, c2, c3, c4, hz]⟩
          · exact ⟨.badOffset, by simp [fix_zip, c1, c2, c3, c4]⟩
        · exact ⟨.noEndSig, by simp [fix_zip, c1, c2, c3]⟩
      obtain ⟨e, he⟩ := hsk
      rw [he]
      exact ⟨rfl, rfl, fun _ hlt => absurd hlt c2, fun _ => ⟨e, rfl⟩⟩
  · have heq : fix_zip file false = ⟨.skipped .wrongStartSig, file, []⟩ := by
      simp [fix_zip, c1]
    rw [heq]
    exact ⟨rfl, rfl, fun hs _ => absurd hs c1, fun _ => ⟨.wrongStartSig, rfl⟩⟩

/-- Witness for C6 (amended) at a concrete 6-byte file. -/
theorem C6_witness :
    (fix_zip [0x50, 0x4b, 0x03, 0x04, 0x00, 0x00] false).writes = [] ∧
    (fix_zip [0x50, 0x4b, 0x03, 0x04, 0x00, 0x00] false).file =
      [0x50, 0x4b, 0x03, 0x04, 0x00, 0x00] ∧
    (fix_zip [0x50, 0x4b, 0x03, 0x04, 0x00, 0x00] false).outcome =
      .uncaught .invalidSeek := by
  obtain ⟨a, b, c, _⟩ :=
    C6_short_file_no_write [0x50, 0x4b, 0x03, 0x04, 0x00, 0x00] (by decide)
  exact ⟨a, b, c (by decide) (by decide)⟩

/-- C7: on a file passing the four signature invariants whose disk-count field
is neither `00 00 00 00` nor `01 00 00 00`, `fix_zip` reports the unknown
disk-count ValueError and leaves the file untouched. -/
theorem C7_unknown_disk_count (file : List Nat) (dry_run : Bool)
    (h1 : invariant1 file) (h2 : invariant2 file) (h3 : invariant3 file)
    (h4 : invariant4 file)
    (h5a : diskCount file ≠ [0x00, 0x00, 0x00, 0x00])
    (h5b : diskCount file ≠ [0x01, 0x00, 0x00, 0x00]) :
    fix_zip file dry_run = ⟨.skipped .unknownDiskCount, file, []⟩ := by
  have hlen : 42 ≤ file.length := le_length_of_invariants file h1 h4
  have hnl : ¬ file.length < 42 := by omega
  unfold invariant1 at h1
  unfold invariant2 tail42 at h2
  unfold invariant3 tail42 at h3
  unfold invariant4 tail42 at h4
  unfold diskCount tail42 at h5a h5b
  simp [fix_zip, h1, h2, h3, h4, h5a, h5b, hnl]

/-- Witness for C7 at a concrete archive whose disk-count field is `02 00 00 00`. -/
theorem C7_witness :
    fix_zip unknownDiskExample false =
      ⟨.skipped .unknownDiskCount, unknownDiskExample, []⟩ :=
  C7_unknown_disk_count unknownDiskExample false (by decide) (by decide) (by decide)
    (by decide) (by decide) (by decide)

/-- C8: on a file whose first 4 bytes are not `50 4B 03 04`, `fix_zip` reports
the wrong-signature ValueError and leaves the file untouched. -/
theorem C8_wrong_start_signature (file : List Nat) (dry_run : Bool)
    (h : file.take 4 ≠ ZIP_LOCAL_HDR_SIG) :
    fix_zip file dry_run = ⟨.skipped .wrongStartSig, file, []⟩ := by
  simp [fix_zip, h]

/-- Witness for C8 at a concrete 4-byte non-ZIP file. -/
theorem C8_witness :
    fix_zip [0x00, 0x00, 0x00, 0x00] false =
      ⟨.skipped .wrongStartSig, [0x00, 0x00, 0x00, 0x00], []⟩ :=
  C8_wrong_start_signature [0x00, 0x00, 0x00, 0x00] false (by decide)

/-- The namespace built by `parse_args` does hold the path list — under the
attribute `files`; the loop, however, reads `file`. -/
theorem parse_args_files_present (d : Bool) (ps : List String) :
    getattr (parse_args d ps) .filesAttr = .ok (.paths ps) := rfl

/-- C9: the `__main__` loop iterates `args.file`, an attribute argparse never
set (the positional argument is stored as `files`), so every invocation raises
`AttributeError` before `fix_zip` is called even once; the CLI never invokes
the core once per path as claimed. -/
theorem C9_cli_attribute_error (dryRunFlag : Bool) (filePaths : List String) :
    cli_main dryRunFlag filePaths = .error (.attributeError .fileAttr) := rfl

/-- C10: `fix_zip` is deterministic — two invocations on identical initial
bytes with the same dry-run flag produce the same outcome and identical final
bytes. -/
theorem C10_deterministic (f₁ f₂ : List Nat) (d₁ d₂ : Bool)
    (hf : f₁ = f₂) (hd : d₁ = d₂) :
    (fix_zip f₁ d₁).outcome = (fix_zip f₂ d₂).outcome ∧
    (fix_zip f₁ d₁).file = (fix_zip f₂ d₂).file := by
  subst hf
  subst hd
  exact ⟨rfl, rfl⟩

/-- Witness for C10 at the concrete defective archive. -/
theorem C10_witness :
    (fix_zip defectiveExample false).outcome = (fix_zip defectiveExample false).outcome ∧
    (fix_zip defectiveExample false).file = (fix_zip defectiveExample false).file :=
  C10_deterministic defectiveExample defectiveExample false false rfl rfl
